import Mathlib

/-!
Verification development for the GitHub Discovery Platform scan pipeline.

The embedding covers:
* the Utility Scoring Engine of `auto-scanner.js`
  (`analyzeRepo`, `assessDocQuality`, `assessComplexity`, `calculateUtilityScore`);
* the Record Enricher and Paginated Language Fetcher
  (`processRepo`, `scanLanguage`) and the Scan Orchestrator (`runScan`);
* the Content Store upsert and category filtering of `server.js`
  (`saveProject`, the category branch of `getProjects`).

JavaScript strings are modelled as Lean `String`s with character-list
operations (`occursIn` models `String.prototype.includes`, `jsToLower`
models `toLowerCase`, character counts model `.length`).  Fractional
scores use `ℚ`.  Timestamps are abstract `Nat` instants supplied by the
caller.  Network responses and README fetches are supplied as explicit
oracles, so the stateful scan loops become pure state-passing functions;
the ghost fields `attempts` and `waits` record, respectively, how many
times `processRepo` was invoked and which sleep durations the throttle
handler requested.
-/

namespace GitDiscovery

/-- `occursIn needle haystack` is true when `needle` occurs contiguously in
`haystack`; together with `jsIncludes` below it models
`String.prototype.includes`. -/
def occursIn : List Char → List Char → Bool
  | needle, [] => needle.isEmpty
  | needle, x :: xs => List.isPrefixOf needle (x :: xs) || occursIn needle xs

/-- Model of `s.includes(sub)` on JavaScript strings. -/
def jsIncludes (s sub : String) : Bool :=
  occursIn sub.data s.data

/-- Model of `s.toLowerCase()` (ASCII case mapping). -/
def jsToLower (s : String) : String :=
  ⟨s.data.map Char.toLower⟩

/-- Model of `s.substring(0, n)`. -/
def jsSubstring (s : String) (n : Nat) : String :=
  ⟨s.data.take n⟩

/-- A repository summary as returned by the search provider
(the fields of the GitHub API items used by `auto-scanner.js`). -/
structure Repo where
  id : Nat
  name : String
  full_name : String
  description : Option String
  language : Option String
  stargazers_count : Nat
  topics : List String
deriving DecidableEq, Repr

/-- The structured analysis produced by `analyzeRepo`. -/
structure Analysis where
  category : String
  features : List String
  has_documentation : Bool
  documentation_quality : String
  complexity : String
  production_ready : Bool
deriving DecidableEq, Repr

/-- `hasInstall` local of `assessDocQuality`:
`readme.toLowerCase().includes('install')`. -/
def hasInstallTerm (readme : String) : Bool :=
  jsIncludes (jsToLower readme) "install"

/-- `hasUsage` local of `assessDocQuality`:
`readme.toLowerCase().includes('usage') || readme.toLowerCase().includes('example')`. -/
def hasUsageTerm (readme : String) : Bool :=
  jsIncludes (jsToLower readme) "usage" || jsIncludes (jsToLower readme) "example"

/-- `AutoScanner.assessDocQuality` from `auto-scanner.js`. -/
def assessDocQuality (readme : String) : String :=
  if readme.length > 3000 && hasInstallTerm readme && hasUsageTerm readme then "excellent"
  else if readme.length > 1500 && (hasInstallTerm readme || hasUsageTerm readme) then "good"
  else if readme.length > 500 then "basic"
  else "poor"

/-- `AutoScanner.assessComplexity` from `auto-scanner.js`. -/
def assessComplexity (readme : String) : String :=
  if readme.length > 5000 then "high"
  else if readme.length > 2000 then "medium"
  else "low"

/-- The category-detection if/else chain of `AutoScanner.analyzeRepo`,
applied to the lower-cased README text. -/
def detectCategory (readmeLower : String) : String :=
  if jsIncludes readmeLower "auth" || jsIncludes readmeLower "authentication" then
    "authentication"
  else if jsIncludes readmeLower "api" || jsIncludes readmeLower "rest" then "api"
  else if jsIncludes readmeLower "database" || jsIncludes readmeLower "orm" then "database"
  else if jsIncludes readmeLower "ui" || jsIncludes readmeLower "component" then "ui"
  else if jsIncludes readmeLower "framework" then "framework"
  else if jsIncludes readmeLower "cli" || jsIncludes readmeLower "command" then "cli"
  else if jsIncludes readmeLower "testing" || jsIncludes readmeLower "test" then "testing"
  else "general"

/-- The feature-tag accumulation of `AutoScanner.analyzeRepo`: each of the
four terms is checked once, in this order, against the lower-cased README. -/
def detectFeatures (readmeLower : String) : List String :=
  (if jsIncludes readmeLower "typescript" then ["typescript"] else []) ++
  (if jsIncludes readmeLower "async" then ["async"] else []) ++
  (if jsIncludes readmeLower "security" then ["security"] else []) ++
  (if jsIncludes readmeLower "performance" then ["performance"] else [])

/-- `AutoScanner.analyzeRepo` from `auto-scanner.js`. -/
def analyzeRepo (repo : Repo) (readme : String) : Analysis :=
  let readmeLower := jsToLower readme
  { category := detectCategory readmeLower
    features := detectFeatures readmeLower
    has_documentation := readme.length > 500
    documentation_quality := assessDocQuality readme
    complexity := assessComplexity readme
    production_ready :=
      jsIncludes readmeLower "production" || repo.stargazers_count > 1000 }

/-- `AutoScanner.calculateUtilityScore` from `auto-scanner.js`: base 5.0,
stars bonus, documentation bonus, 0.2 per feature, production bonus,
then `Math.min(score, 10)`.  The `readme` argument is kept (and unused)
to mirror the source signature. -/
def calculateUtilityScore (repo : Repo) (readme : String) (analysis : Analysis) : ℚ :=
  let withStars : ℚ := 5 +
    (if repo.stargazers_count > 10000 then 2
     else if repo.stargazers_count > 1000 then 1
     else if repo.stargazers_count > 100 then 1/2 else 0)
  let withDoc : ℚ := withStars +
    (if analysis.documentation_quality = "excellent" then 3/2
     else if analysis.documentation_quality = "good" then 1
     else if analysis.documentation_quality = "basic" then 1/2 else 0)
  let withFeatures : ℚ := withDoc + (analysis.features.length : ℚ) * (1/5)
  let withProd : ℚ := withFeatures + (if analysis.production_ready then 1 else 0)
  min withProd 10

/-- The category description of the spec (§4.4): term groups checked in the
fixed priority order authentication, api, database, ui, framework, cli,
testing, against the lower-cased document text. -/
def categoryRules : List (List String × String) :=
  [(["auth", "authentication"], "authentication"),
   (["api", "rest"], "api"),
   (["database", "orm"], "database"),
   (["ui", "component"], "ui"),
   (["framework"], "framework"),
   (["cli", "command"], "cli"),
   (["testing", "test"], "testing")]

/-- Spec-side category assignment, following the spec's words: the first
rule whose term group matches the lower-cased document text wins, with
`general` as the fallback.  Written for comparison with `detectCategory`,
which is translated from the source. -/
def specCategory (readmeLower : String) : String :=
  match categoryRules.find? (fun rule => rule.1.any fun term => jsIncludes readmeLower term) with
  | some rule => rule.2
  | none => "general"

/-- The `projectData` object built by `AutoScanner.processRepo` and passed to
`BackendService.saveProject`.  `topics` and `ai_analysis` are serialized with
`JSON.stringify` before storage; the serialization is injective on this model,
so they are kept structured. -/
structure ProjectData where
  github_id : Nat
  name : String
  full_name : String
  description : String
  language : Option String
  stars : Nat
  topics : List String
  readme_content : String
  ai_analysis : Analysis
  utility_score : ℚ
  category : String
deriving DecidableEq, Repr

/-- One row of the `projects` table of `server.js` (`github_id` carries a
UNIQUE constraint; `created_at` and `scanned_at` default to the current
timestamp on insert). -/
structure ProjectRow where
  github_id : Nat
  name : String
  full_name : String
  description : String
  language : Option String
  stars : Nat
  topics : List String
  readme_content : String
  ai_analysis : Analysis
  utility_score : ℚ
  category : String
  created_at : Nat
  scanned_at : Nat
deriving DecidableEq, Repr

/-- Whether the `projects` table already holds a row for key `k`. -/
def hasKey (db : List ProjectRow) (k : Nat) : Bool :=
  db.any fun r => r.github_id == k

/-- The row created by the INSERT arm of `saveProject`'s statement;
`now` models `CURRENT_TIMESTAMP`. -/
def insertRow (p : ProjectData) (now : Nat) : ProjectRow :=
  { github_id := p.github_id, name := p.name, full_name := p.full_name,
    description := p.description, language := p.language, stars := p.stars,
    topics := p.topics, readme_content := p.readme_content,
    ai_analysis := p.ai_analysis, utility_score := p.utility_score,
    category := p.category, created_at := now, scanned_at := now }

/-- The `ON CONFLICT(github_id) DO UPDATE SET` arm of `saveProject`'s
statement: on the conflicting row it refreshes `stars`, `readme_content`,
`ai_analysis`, `utility_score` and `scanned_at` from the excluded values,
and leaves every other row (and every other column) unchanged. -/
def updateRow (p : ProjectData) (now : Nat) (r : ProjectRow) : ProjectRow :=
  if r.github_id == p.github_id then
    { r with stars := p.stars, readme_content := p.readme_content,
             ai_analysis := p.ai_analysis, utility_score := p.utility_score,
             scanned_at := now }
  else r

/-- `BackendService.saveProject` from `server.js`: SQLite
`INSERT ... ON CONFLICT(github_id) DO UPDATE` against a table whose
`github_id` column is UNIQUE. -/
def saveProject (db : List ProjectRow) (p : ProjectData) (now : Nat) : List ProjectRow :=
  if hasKey db p.github_id then db.map (updateRow p now)
  else db ++ [insertRow p now]

/-- The `filters.category` branch of `BackendService.getProjects`
(`AND category = ?`): project queries filter on the top-level `category`
column, not on the category embedded in the serialized `ai_analysis`. -/
def filterByCategory (db : List ProjectRow) (c : String) : List ProjectRow :=
  db.filter fun r => r.category == c

/-- One response of the GitHub search request issued by `scanLanguage`:
a 2xx payload with its parsed item list, a 403 throttle response carrying
the optional `x-ratelimit-reset` header (seconds), another non-2xx status,
or a thrown network error. -/
inductive PageResponse where
  | ok (items : List Repo)
  | throttle (resetHeader : Option Nat)
  | httpError (status : Nat)
  | netError
deriving DecidableEq, Repr

/-- The mutable state threaded through one `scanLanguage` call:
`scannedCount` and `page` are the locals of `scanLanguage`,
`totalScanned` is the scanner field `this.totalScanned`, `db` is the
backing store written through `saveProject`.  `attempts` (ghost) counts
`processRepo` invocations and `waits` (ghost) records the sleep durations
requested by the throttle handler, in milliseconds. -/
structure ScanLangState where
  scannedCount : Nat
  page : Nat
  totalScanned : Nat
  attempts : Nat
  db : List ProjectRow
  waits : List Int
deriving DecidableEq, Repr

/-- The wait computed on a 403 response:
`resetTime ? (parseInt(resetTime) * 1000 - Date.now()) : 60000`. -/
def throttleWait (resetHeader : Option Nat) (now : Nat) : Int :=
  match resetHeader with
  | some reset => (reset : Int) * 1000 - (now : Int)
  | none => 60000

/-- `AutoScanner.processRepo` from `auto-scanner.js`, with the README fetch
supplied as an oracle: a repository whose README fetch fails or is absent is
skipped (the store is returned unchanged and no error escapes); otherwise the
analysis is computed and the record is saved through `saveProject`. -/
def processRepo (db : List ProjectRow) (repo : Repo)
    (readmeOf : Repo → Option String) (now : Nat) : List ProjectRow :=
  match readmeOf repo with
  | none => db
  | some readme =>
      let analysis := analyzeRepo repo readme
      saveProject db
        { github_id := repo.id, name := repo.name, full_name := repo.full_name,
          description := repo.description.getD "", language := repo.language,
          stars := repo.stargazers_count, topics := repo.topics,
          readme_content := jsSubstring readme 10000,
          ai_analysis := analysis,
          utility_score := calculateUtilityScore repo readme analysis,
          category := analysis.category } now

/-- The inner `for (const repo of data.items)` loop of `scanLanguage`:
each item is passed to `processRepo` and then `scannedCount` and
`totalScanned` are incremented, until the per-language quota is reached. -/
def processItems (readmeOf : Repo → Option String) (now maxRepos : Nat) :
    List Repo → ScanLangState → ScanLangState
  | [], st => st
  | repo :: rest, st =>
      if st.scannedCount ≥ maxRepos then st
      else
        processItems readmeOf now maxRepos rest
          { st with db := processRepo st.db repo readmeOf now,
                    scannedCount := st.scannedCount + 1,
                    totalScanned := st.totalScanned + 1,
                    attempts := st.attempts + 1 }

/-- The `while (scannedCount < maxRepos)` loop of `scanLanguage`.  Each loop
iteration consumes the next scripted page response: a 403 sleeps for
`throttleWait` and retries without touching `page` or `scannedCount`, any
other non-2xx status or network error breaks out of the loop, an empty item
list breaks out of the loop, and a non-empty page is processed item by item
before `page` is advanced. -/
def scanLanguageLoop (readmeOf : Repo → Option String) (now maxRepos : Nat) :
    List PageResponse → ScanLangState → ScanLangState
  | [], st => st
  | resp :: rest, st =>
      if st.scannedCount ≥ maxRepos then st
      else
        match resp with
        | PageResponse.throttle resetHeader =>
            scanLanguageLoop readmeOf now maxRepos rest
              { st with waits := st.waits ++ [throttleWait resetHeader now] }
        | PageResponse.httpError _ => st
        | PageResponse.netError => st
        | PageResponse.ok items =>
            if items.isEmpty then st
            else
              let st1 := processItems readmeOf now maxRepos items st
              scanLanguageLoop readmeOf now maxRepos rest { st1 with page := st1.page + 1 }

/-- `AutoScanner.scanLanguage` from `auto-scanner.js`: the per-language
fetch, started with `scannedCount = 0` and `page = 1`. -/
def scanLanguage (responses : List PageResponse) (readmeOf : Repo → Option String)
    (maxRepos now total₀ : Nat) (db₀ : List ProjectRow) : ScanLangState :=
  scanLanguageLoop readmeOf now maxRepos responses
    { scannedCount := 0, page := 1, totalScanned := total₀, attempts := 0,
      db := db₀, waits := [] }

/-- The fixed language list of `auto-scanner.js`. -/
def SCAN_LANGUAGES : List String := ["JavaScript", "Python", "Java", "TypeScript", "Go"]

/-- The fixed per-language quota of `auto-scanner.js`. -/
def REPOS_PER_LANGUAGE : Nat := 600

/-- The `for (const language of SCAN_LANGUAGES)` loop of `runScan`,
threading `totalScanned` and the store through the per-language scans. -/
def runLanguages (env : String → List PageResponse) (readmeOf : Repo → Option String)
    (now : Nat) : List String → Nat → List ProjectRow → Nat × List ProjectRow
  | [], total, db => (total, db)
  | lang :: rest, total, db =>
      let r := scanLanguage (env lang) readmeOf REPOS_PER_LANGUAGE now total db
      runLanguages env readmeOf now rest r.totalScanned r.db

/-- Ghost companion of `runLanguages`: the per-language attempted counts
(the `scannedCount` each `scanLanguage` call ends with, reported by its
final progress log). -/
def perLanguageCounts (env : String → List PageResponse) (readmeOf : Repo → Option String)
    (now : Nat) : List String → Nat → List ProjectRow → List Nat
  | [], _, _ => []
  | lang :: rest, total, db =>
      let r := scanLanguage (env lang) readmeOf REPOS_PER_LANGUAGE now total db
      r.scannedCount :: perLanguageCounts env readmeOf now rest r.totalScanned r.db

/-- The scanner fields touched by `runScan`: the single-flight flag
`isScanning`, `lastScanTime`, the lifetime counter `totalScanned`, and the
backing store. -/
structure ScannerSt where
  isScanning : Bool
  lastScanTime : Option Nat
  totalScanned : Nat
  db : List ProjectRow
deriving DecidableEq, Repr

/-- `AutoScanner.runScan` from `auto-scanner.js`.  The `body` argument is
the try-block (the language loop); its Bool result tells whether it threw,
which the catch-block swallows.  The single-flight guard returns
immediately when a scan is already running; otherwise the flag is raised,
the body runs, `lastScanTime` is recorded on normal completion, and the
finally-block lowers the flag on every path. -/
def runScan (s : ScannerSt) (body : ScannerSt → ScannerSt × Bool) (now : Nat) : ScannerSt :=
  if s.isScanning then s
  else
    let s₁ := { s with isScanning := true }
    let res := body s₁
    let s₂ := if res.2 then res.1 else { res.1 with lastScanTime := some now }
    { s₂ with isScanning := false }

/-- The concrete try-block of `runScan`: scan every language of
`SCAN_LANGUAGES` in order (the body of the model never throws; the Bool is
the thrown-flag consumed by `runScan`). -/
def scanBody (env : String → List PageResponse) (readmeOf : Repo → Option String)
    (now : Nat) (s : ScannerSt) : ScannerSt × Bool :=
  let r := runLanguages env readmeOf now SCAN_LANGUAGES s.totalScanned s.db
  ({ s with totalScanned := r.1, db := r.2 }, false)

/-! Concrete fixtures for the witness theorems. -/

/-- Sample analysis for the witness records. -/
def analysisApi : Analysis :=
  { category := "api", features := ["async"], has_documentation := true,
    documentation_quality := "good", complexity := "medium",
    production_ready := false }

/-- Sample analysis for the witness records, with a different category. -/
def analysisDb : Analysis :=
  { category := "database", features := [], has_documentation := true,
    documentation_quality := "basic", complexity := "low",
    production_ready := true }

/-- First-scan record used by the upsert witnesses. -/
def recordFirst : ProjectData :=
  { github_id := 7, name := "alpha", full_name := "octo/alpha",
    description := "demo", language := some "Go", stars := 10,
    topics := ["tools"], readme_content := "first readme",
    ai_analysis := analysisApi, utility_score := 6, category := "api" }

/-- Re-scan record for the same repository: same `github_id`, new stars,
readme, analysis (whose category now differs) and score. -/
def recordSecond : ProjectData :=
  { github_id := 7, name := "alpha", full_name := "octo/alpha",
    description := "demo", language := some "Go", stars := 99,
    topics := ["tools"], readme_content := "second readme",
    ai_analysis := analysisDb, utility_score := 7, category := "database" }

/-- README oracle that reports every README as absent. -/
def readmeNone : Repo → Option String := fun _ => none

/-- Response script with no pages for any language. -/
def envEmpty : String → List PageResponse := fun _ => []

/-- Idle scanner state used by witnesses. -/
def scannerIdle : ScannerSt :=
  { isScanning := false, lastScanTime := none, totalScanned := 0, db := [] }

/-- Busy scanner state used by witnesses. -/
def scannerBusy : ScannerSt :=
  { isScanning := true, lastScanTime := none, totalScanned := 0, db := [] }

/-- Sample repository summary used by witnesses. -/
def repoSample : Repo :=
  { id := 42, name := "beta", full_name := "octo/beta",
    description := some "an api server", language := some "JavaScript",
    stargazers_count := 1500, topics := ["web"] }

/-- Initial per-language state used by witnesses. -/
def langStateInit : ScanLangState :=
  { scannedCount := 0, page := 1, totalScanned := 0, attempts := 0,
    db := [], waits := [] }

/-! ## Theorems -/

theorem starsBonus_nonneg (n : Nat) :
    (0 : ℚ) ≤ (if n > 10000 then 2 else if n > 1000 then 1
               else if n > 100 then 1/2 else 0) := by
  split_ifs <;> norm_num

theorem docBonus_nonneg (q : String) :
    (0 : ℚ) ≤ (if q = "excellent" then 3/2 else if q = "good" then 1
               else if q = "basic" then 1/2 else 0) := by
  split_ifs <;> norm_num

theorem prodBonus_nonneg (b : Bool) :
    (0 : ℚ) ≤ (if b then 1 else 0) := by
  split_ifs <;> norm_num

theorem calculateUtilityScore_bounds (repo : Repo) (readme : String) (analysis : Analysis) :
    5 ≤ calculateUtilityScore repo readme analysis ∧
    calculateUtilityScore repo readme analysis ≤ 10 := by
  unfold calculateUtilityScore
  refine ⟨le_min ?_ (by norm_num), min_le_right _ _⟩
  have hs := starsBonus_nonneg repo.stargazers_count
  have hd := docBonus_nonneg analysis.documentation_quality
  have hf : (0 : ℚ) ≤ (analysis.features.length : ℚ) * (1/5) := by positivity
  have hp := prodBonus_nonneg analysis.production_ready
  linarith

/-- C1: for every repository metadata and document text, the utility score
computed by the Scoring Engine (base 5.0 plus non-negative bonuses for
popularity thresholds, documentation-quality tier, 0.2 per feature tag, and
production-readiness, then clamped above at 10.0) satisfies
`5.0 ≤ utility_score ≤ 10.0`. -/
theorem utility_score_bounds (repo : Repo) (readme : String) :
    5 ≤ calculateUtilityScore repo readme (analyzeRepo repo readme) ∧
    calculateUtilityScore repo readme (analyzeRepo repo readme) ≤ 10 :=
  calculateUtilityScore_bounds repo readme (analyzeRepo repo readme)

theorem saveProject_fresh (db : List ProjectRow) (p : ProjectData) (now : Nat)
    (h : hasKey db p.github_id = false) :
    saveProject db p now = db ++ [insertRow p now] := by
  unfold saveProject
  rw [h]
  simp

theorem hasKey_false_mem (db : List ProjectRow) (k : Nat)
    (h : hasKey db k = false) : ∀ r ∈ db, r.github_id ≠ k := by
  intro r hr
  unfold hasKey at h
  rw [List.any_eq_false] at h
  simpa using h r hr

/-- Shared shape of a fresh-insert followed by a conflict-update: the rows
holding the key form exactly the one row whose immutable columns come from
the first write and whose refreshed columns come from the second. -/
theorem saveProject_twice_filter (db : List ProjectRow) (p q : ProjectData)
    (t₁ t₂ : Nat) (hfresh : hasKey db p.github_id = false)
    (hkey : q.github_id = p.github_id) :
    (saveProject (saveProject db p t₁) q t₂).filter
        (fun r => r.github_id == p.github_id) =
      [{ github_id := p.github_id, name := p.name, full_name := p.full_name,
         description := p.description, language := p.language,
         stars := q.stars, topics := p.topics,
         readme_content := q.readme_content, ai_analysis := q.ai_analysis,
         utility_score := q.utility_score, category := p.category,
         created_at := t₁, scanned_at := t₂ }] := by
  have h1 := saveProject_fresh db p t₁ hfresh
  have h2 : hasKey (db ++ [insertRow p t₁]) q.github_id = true := by
    unfold hasKey insertRow
    rw [List.any_append]
    simp [hkey]
  rw [h1]
  unfold saveProject
  rw [h2]
  simp only [if_true]
  rw [List.map_append, List.filter_append]
  have hdb : (db.map (updateRow q t₂)).filter
      (fun r => r.github_id == p.github_id) = [] := by
    rw [List.filter_eq_nil_iff]
    intro r hr
    obtain ⟨s, hs, rfl⟩ := List.mem_map.mp hr
    have hne : s.github_id ≠ p.github_id := hasKey_false_mem db p.github_id hfresh s hs
    have hupd : updateRow q t₂ s = s := by
      unfold updateRow
      rw [hkey]
      simp [hne]
    rw [hupd]
    simp [hne]
  rw [hdb]
  have hrow : updateRow q t₂ (insertRow p t₁) =
      { github_id := p.github_id, name := p.name, full_name := p.full_name,
        description := p.description, language := p.language,
        stars := q.stars, topics := p.topics,
        readme_content := q.readme_content, ai_analysis := q.ai_analysis,
        utility_score := q.utility_score, category := p.category,
        created_at := t₁, scanned_at := t₂ } := by
    unfold updateRow insertRow
    rw [hkey]
    simp
  simp [hrow]

/-- C2: upserting two records with the same `github_id` yields exactly one
stored record, never a duplicate insert; the update path refreshes only
`stars`, `readme_content`, `ai_analysis`, `utility_score` and `scanned_at`,
while `github_id` and `created_at` (and the columns absent from the update
list) keep their first-insert values, and the second upsert's `stars` value
is the one retained. -/
theorem upsert_same_id (db : List ProjectRow) (p q : ProjectData)
    (t₁ t₂ : Nat) (hfresh : hasKey db p.github_id = false)
    (hkey : q.github_id = p.github_id) :
    (saveProject (saveProject db p t₁) q t₂).filter
        (fun r => r.github_id == p.github_id) =
      [{ github_id := p.github_id, name := p.name, full_name := p.full_name,
         description := p.description, language := p.language,
         stars := q.stars, topics := p.topics,
         readme_content := q.readme_content, ai_analysis := q.ai_analysis,
         utility_score := q.utility_score, category := p.category,
         created_at := t₁, scanned_at := t₂ }] :=
  saveProject_twice_filter db p q t₁ t₂ hfresh hkey

theorem upsert_same_id_witness :
    (saveProject (saveProject [] recordFirst 1) recordSecond 2).filter
        (fun r => r.github_id == recordFirst.github_id) =
      [{ github_id := recordFirst.github_id, name := recordFirst.name,
         full_name := recordFirst.full_name,
         description := recordFirst.description,
         language := recordFirst.language,
         stars := recordSecond.stars, topics := recordFirst.topics,
         readme_content := recordSecond.readme_content,
         ai_analysis := recordSecond.ai_analysis,
         utility_score := recordSecond.utility_score,
         category := recordFirst.category,
         created_at := 1, scanned_at := 2 }] :=
  upsert_same_id [] recordFirst recordSecond 1 2 rfl rfl

theorem mem_filterByCategory (db₂ : List ProjectRow) (r : ProjectRow) (k : Nat)
    (hfil : db₂.filter (fun s => s.github_id == k) = [r]) :
    r ∈ filterByCategory db₂ r.category := by
  have hr : r ∈ db₂ := by
    refine List.mem_of_mem_filter (p := fun s => s.github_id == k) ?_
    rw [hfil]
    exact List.mem_singleton_self r
  unfold filterByCategory
  exact List.mem_filter.mpr ⟨hr, by simp⟩

theorem notMem_filterByCategory (db₂ : List ProjectRow) (r : ProjectRow)
    (c : String) (hne : r.category ≠ c) : r ∉ filterByCategory db₂ c := by
  intro hmem
  unfold filterByCategory at hmem
  exact hne (by simpa using (List.mem_filter.mp hmem).2)

/-- C10: on the conflict-update path the top-level `category` column is never
refreshed: a re-scan that computes a different category updates the stored
analysis (which embeds the new category) but leaves the `category` column —
the field used by `getProjects` category filtering — at its first-insert
value, so the queryable category can permanently disagree with the category
inside the stored analysis. -/
theorem category_column_stale (db : List ProjectRow) (p q : ProjectData)
    (t₁ t₂ : Nat) (hfresh : hasKey db p.github_id = false)
    (hkey : q.github_id = p.github_id)
    (hneq : q.ai_analysis.category ≠ p.category) :
    ∃ r : ProjectRow,
      (saveProject (saveProject db p t₁) q t₂).filter
          (fun s => s.github_id == p.github_id) = [r] ∧
      r.category = p.category ∧
      r.ai_analysis = q.ai_analysis ∧
      r.category ≠ r.ai_analysis.category ∧
      r ∈ filterByCategory (saveProject (saveProject db p t₁) q t₂) p.category ∧
      r ∉ filterByCategory (saveProject (saveProject db p t₁) q t₂)
            q.ai_analysis.category := by
  have hfilter := saveProject_twice_filter db p q t₁ t₂ hfresh hkey
  refine ⟨_, hfilter, rfl, rfl, fun h => hneq h.symm,
    mem_filterByCategory _ _ p.github_id hfilter,
    notMem_filterByCategory _ _ _ fun h => hneq h.symm⟩

theorem category_column_stale_witness :
    ∃ r : ProjectRow,
      (saveProject (saveProject [] recordFirst 1) recordSecond 2).filter
          (fun s => s.github_id == recordFirst.github_id) = [r] ∧
      r.category = recordFirst.category ∧
      r.ai_analysis = recordSecond.ai_analysis ∧
      r.category ≠ r.ai_analysis.category ∧
      r ∈ filterByCategory (saveProject (saveProject [] recordFirst 1) recordSecond 2)
            recordFirst.category ∧
      r ∉ filterByCategory (saveProject (saveProject [] recordFirst 1) recordSecond 2)
            recordSecond.ai_analysis.category :=
  category_column_stale [] recordFirst recordSecond 1 2 rfl rfl (by decide)

/-- C3: invoking `runScan` while `isScanning` is true returns immediately
without starting a second concurrent run, and every run — whether its body
completes normally or throws — ends with `isScanning` back at false. -/
theorem single_flight (s : ScannerSt) (body : ScannerSt → ScannerSt × Bool) (now : Nat) :
    (s.isScanning = true → runScan s body now = s) ∧
    (s.isScanning = false → (runScan s body now).isScanning = false) := by
  unfold runScan
  constructor
  · intro h
    simp [h]
  · intro h
    simp [h]

theorem single_flight_witness :
    (runScan scannerBusy (fun s => (s, true)) 5 = scannerBusy) ∧
    (runScan scannerIdle (fun s => (s, true)) 5).isScanning = false :=
  ⟨(single_flight scannerBusy (fun s => (s, true)) 5).1 rfl,
   (single_flight scannerIdle (fun s => (s, true)) 5).2 rfl⟩

/-- C4: a throttled (403) attempt sleeps for the duration extracted from the
rate-limit header (or the 60-second default when the header is absent) and
then retries with the loop state otherwise untouched: neither `page` nor
`scannedCount` is incremented by a throttled attempt. -/
theorem throttle_retries_same_page (readmeOf : Repo → Option String)
    (now maxRepos : Nat) (resetHeader : Option Nat)
    (rest : List PageResponse) (st : ScanLangState)
    (hquota : st.scannedCount < maxRepos) :
    scanLanguageLoop readmeOf now maxRepos
        (PageResponse.throttle resetHeader :: rest) st =
      scanLanguageLoop readmeOf now maxRepos rest
        { st with waits := st.waits ++ [throttleWait resetHeader now] } ∧
    (∀ reset, throttleWait (some reset) now = (reset : Int) * 1000 - (now : Int)) ∧
    throttleWait none now = 60000 := by
  refine ⟨?_, fun reset => rfl, rfl⟩
  conv_lhs => rw [scanLanguageLoop]
  rw [if_neg (Nat.not_le.mpr hquota)]

theorem throttle_retries_same_page_witness :
    scanLanguageLoop readmeNone 100 2
        (PageResponse.throttle (some 5) :: []) langStateInit =
      scanLanguageLoop readmeNone 100 2 []
        { langStateInit with
            waits := langStateInit.waits ++ [throttleWait (some 5) 100] } ∧
    (∀ reset, throttleWait (some reset) 100 = (reset : Int) * 1000 - (100 : Int)) ∧
    throttleWait none 100 = 60000 :=
  throttle_retries_same_page readmeNone 100 2 (some 5) [] langStateInit (by decide)

/-- C5: a repository summary whose README fetch fails or returns absent is
skipped by the Enricher — no record is written and no error surfaces — yet
the Fetcher's loop still increments `scannedCount` (and `totalScanned`) for
that item, so a skipped-for-no-documentation item consumes quota exactly
like a stored one. -/
theorem skip_no_doc (readmeOf : Repo → Option String) (now maxRepos : Nat)
    (repo : Repo) (rest : List Repo) (st : ScanLangState)
    (hdoc : readmeOf repo = none) (hquota : st.scannedCount < maxRepos) :
    processRepo st.db repo readmeOf now = st.db ∧
    processItems readmeOf now maxRepos (repo :: rest) st =
      processItems readmeOf now maxRepos rest
        { st with scannedCount := st.scannedCount + 1,
                  totalScanned := st.totalScanned + 1,
                  attempts := st.attempts + 1 } := by
  have h1 : processRepo st.db repo readmeOf now = st.db := by
    unfold processRepo
    rw [hdoc]
  refine ⟨h1, ?_⟩
  show (if st.scannedCount ≥ maxRepos then st
        else processItems readmeOf now maxRepos rest
          { st with db := processRepo st.db repo readmeOf now,
                    scannedCount := st.scannedCount + 1,
                    totalScanned := st.totalScanned + 1,
                    attempts := st.attempts + 1 }) = _
  rw [if_neg (Nat.not_le.mpr hquota), h1]

theorem skip_no_doc_witness :
    processRepo langStateInit.db repoSample readmeNone 3 = langStateInit.db ∧
    processItems readmeNone 3 2 (repoSample :: []) langStateInit =
      processItems readmeNone 3 2 []
        { langStateInit with
            scannedCount := langStateInit.scannedCount + 1,
            totalScanned := langStateInit.totalScanned + 1,
            attempts := langStateInit.attempts + 1 } :=
  skip_no_doc readmeNone 3 2 repoSample [] langStateInit rfl (by decide)

theorem processItems_counts (readmeOf : Repo → Option String) (now maxRepos : Nat)
    (items : List Repo) :
    ∀ st : ScanLangState, ∃ k,
      (processItems readmeOf now maxRepos items st).scannedCount = st.scannedCount + k ∧
      (processItems readmeOf now maxRepos items st).totalScanned = st.totalScanned + k ∧
      (processItems readmeOf now maxRepos items st).attempts = st.attempts + k := by
  induction items with
  | nil =>
    intro st
    exact ⟨0, rfl, rfl, rfl⟩
  | cons repo rest ih =>
    intro st
    by_cases h : st.scannedCount ≥ maxRepos
    · refine ⟨0, ?_, ?_, ?_⟩ <;>
        simp [processItems, h]
    · obtain ⟨k, h1, h2, h3⟩ := ih
        { st with db := processRepo st.db repo readmeOf now,
                  scannedCount := st.scannedCount + 1,
                  totalScanned := st.totalScanned + 1,
                  attempts := st.attempts + 1 }
      dsimp only at h1 h2 h3
      refine ⟨k + 1, ?_, ?_, ?_⟩ <;>
        simp only [processItems, if_neg h] <;>
        omega

theorem scanLanguageLoop_counts (readmeOf : Repo → Option String) (now maxRepos : Nat)
    (responses : List PageResponse) :
    ∀ st : ScanLangState, ∃ k,
      (scanLanguageLoop readmeOf now maxRepos responses st).scannedCount = st.scannedCount + k ∧
      (scanLanguageLoop readmeOf now maxRepos responses st).totalScanned = st.totalScanned + k ∧
      (scanLanguageLoop readmeOf now maxRepos responses st).attempts = st.attempts + k := by
  induction responses with
  | nil =>
    intro st
    exact ⟨0, rfl, rfl, rfl⟩
  | cons resp rest ih =>
    intro st
    by_cases h : st.scannedCount ≥ maxRepos
    · refine ⟨0, ?_, ?_, ?_⟩ <;>
        simp [scanLanguageLoop, h]
    · cases resp with
      | throttle resetHeader =>
        obtain ⟨k, h1, h2, h3⟩ := ih
          { st with waits := st.waits ++ [throttleWait resetHeader now] }
        dsimp only at h1 h2 h3
        refine ⟨k, ?_, ?_, ?_⟩ <;>
          simp only [scanLanguageLoop, if_neg h] <;>
          omega
      | httpError status =>
        refine ⟨0, ?_, ?_, ?_⟩ <;>
          simp [scanLanguageLoop, h]
      | netError =>
        refine ⟨0, ?_, ?_, ?_⟩ <;>
          simp [scanLanguageLoop, h]
      | ok items =>
        by_cases hempty : items.isEmpty
        · refine ⟨0, ?_, ?_, ?_⟩ <;>
            simp [scanLanguageLoop, h, hempty]
        · obtain ⟨k1, g1, g2, g3⟩ := processItems_counts readmeOf now maxRepos items st
          obtain ⟨k2, h1, h2, h3⟩ := ih
            { processItems readmeOf now maxRepos items st with
                page := (processItems readmeOf now maxRepos items st).page + 1 }
          dsimp only at h1 h2 h3
          refine ⟨k1 + k2, ?_, ?_, ?_⟩ <;>
            simp only [scanLanguageLoop, if_neg h, if_neg hempty] <;>
            omega

theorem scanLanguage_counts (responses : List PageResponse)
    (readmeOf : Repo → Option String) (maxRepos now total₀ : Nat)
    (db₀ : List ProjectRow) :
    (scanLanguage responses readmeOf maxRepos now total₀ db₀).totalScanned =
      total₀ + (scanLanguage responses readmeOf maxRepos now total₀ db₀).scannedCount ∧
    (scanLanguage responses readmeOf maxRepos now total₀ db₀).attempts =
      (scanLanguage responses readmeOf maxRepos now total₀ db₀).scannedCount := by
  obtain ⟨k, h1, h2, h3⟩ := scanLanguageLoop_counts readmeOf now maxRepos responses
    { scannedCount := 0, page := 1, totalScanned := total₀, attempts := 0,
      db := db₀, waits := [] }
  dsimp only at h1 h2 h3
  unfold scanLanguage
  constructor <;> omega

theorem runLanguages_sum (env : String → List PageResponse)
    (readmeOf : Repo → Option String) (now : Nat) (langs : List String) :
    ∀ (total : Nat) (db : List ProjectRow),
      (runLanguages env readmeOf now langs total db).1 =
        total + (perLanguageCounts env readmeOf now langs total db).sum := by
  induction langs with
  | nil =>
    intro total db
    simp [runLanguages, perLanguageCounts]
  | cons lang rest ih =>
    intro total db
    have hlang := scanLanguage_counts (env lang) readmeOf REPOS_PER_LANGUAGE now total db
    simp only [runLanguages, perLanguageCounts, List.sum_cons]
    rw [ih]
    omega

/-- C9: the per-language fetch ends with `scannedCount` equal to the number
of enrichment attempts made (every attempted item is counted, stored or
skipped), and a full run accumulates the lifetime `totalScanned` counter by
exactly the sum of the per-language attempted counts. -/
theorem fetch_counts_attempts (env : String → List PageResponse)
    (readmeOf : Repo → Option String) (now t : Nat) (s : ScannerSt)
    (hidle : s.isScanning = false) :
    (∀ (responses : List PageResponse) (total : Nat) (db : List ProjectRow),
      (scanLanguage responses readmeOf REPOS_PER_LANGUAGE now total db).scannedCount =
        (scanLanguage responses readmeOf REPOS_PER_LANGUAGE now total db).attempts) ∧
    (runScan s (scanBody env readmeOf now) t).totalScanned =
      s.totalScanned +
        (perLanguageCounts env readmeOf now SCAN_LANGUAGES s.totalScanned s.db).sum := by
  constructor
  · intro responses total db
    exact (scanLanguage_counts responses readmeOf REPOS_PER_LANGUAGE now total db).2.symm
  · have hsum := runLanguages_sum env readmeOf now SCAN_LANGUAGES s.totalScanned s.db
    unfold runScan scanBody
    rw [if_neg (by simp [hidle])]
    simpa using hsum

theorem fetch_counts_attempts_witness :
    (scanLanguage [] readmeNone REPOS_PER_LANGUAGE 3 0 []).scannedCount =
      (scanLanguage [] readmeNone REPOS_PER_LANGUAGE 3 0 []).attempts ∧
    (runScan scannerIdle (scanBody envEmpty readmeNone 3) 4).totalScanned =
      scannerIdle.totalScanned +
        (perLanguageCounts envEmpty readmeNone 3 SCAN_LANGUAGES
          scannerIdle.totalScanned scannerIdle.db).sum :=
  ⟨(fetch_counts_attempts envEmpty readmeNone 3 4 scannerIdle rfl).1 [] 0 [],
   (fetch_counts_attempts envEmpty readmeNone 3 4 scannerIdle rfl).2⟩

theorem detectCategory_eq_spec (l : String) : detectCategory l = specCategory l := by
  unfold detectCategory specCategory categoryRules
  simp only [List.find?, List.any_cons, List.any_nil, Bool.or_false]
  cases hAuth : jsIncludes l "auth" <;>
  cases hAuthn : jsIncludes l "authentication" <;>
  cases hApi : jsIncludes l "api" <;>
  cases hRest : jsIncludes l "rest" <;>
  simp_all <;>
  cases hDb : jsIncludes l "database" <;>
  cases hOrm : jsIncludes l "orm" <;>
  cases hUi : jsIncludes l "ui" <;>
  cases hComp : jsIncludes l "component" <;>
  simp_all <;>
  cases hFw : jsIncludes l "framework" <;>
  cases hCli : jsIncludes l "cli" <;>
  cases hCmd : jsIncludes l "command" <;>
  cases hTest1 : jsIncludes l "testing" <;>
  cases hTest2 : jsIncludes l "test" <;>
  simp_all

/-- C6: the category of a record is decided by checking the lower-cased
document text against term groups in the fixed priority order
authentication, api, database, ui, framework, cli, testing, with `general`
as the fallback, and the first matching group wins; in particular, a
document containing both an authentication term and an api term is
classified `authentication`, never `api`. -/
theorem category_priority (repo : Repo) (readme : String) :
    (analyzeRepo repo readme).category = specCategory (jsToLower readme) ∧
    ((jsIncludes (jsToLower readme) "auth" = true ∨
      jsIncludes (jsToLower readme) "authentication" = true) →
     (jsIncludes (jsToLower readme) "api" = true ∨
      jsIncludes (jsToLower readme) "rest" = true) →
     (analyzeRepo repo readme).category = "authentication") := by
  have hcat : (analyzeRepo repo readme).category = detectCategory (jsToLower readme) := rfl
  constructor
  · rw [hcat]
    exact detectCategory_eq_spec (jsToLower readme)
  · intro hAuth _hApi
    rw [hcat]
    have hcond : (jsIncludes (jsToLower readme) "auth" ||
        jsIncludes (jsToLower readme) "authentication") = true := by
      rcases hAuth with h | h <;> simp [h]
    unfold detectCategory
    rw [if_pos hcond]

theorem category_priority_witness :
    (analyzeRepo repoSample "Auth and API server").category = "authentication" :=
  (category_priority repoSample "Auth and API server").2
    (Or.inl (by decide)) (Or.inl (by decide))

theorem assessDocQuality_tiers (readme : String) :
    (assessDocQuality readme = "excellent" ↔
      (readme.length > 3000 ∧ hasInstallTerm readme = true ∧ hasUsageTerm readme = true)) ∧
    (assessDocQuality readme = "good" ↔
      (¬(readme.length > 3000 ∧ hasInstallTerm readme = true ∧ hasUsageTerm readme = true) ∧
       readme.length > 1500 ∧ (hasInstallTerm readme = true ∨ hasUsageTerm readme = true))) ∧
    (assessDocQuality readme = "basic" ↔
      (¬(readme.length > 3000 ∧ hasInstallTerm readme = true ∧ hasUsageTerm readme = true) ∧
       ¬(readme.length > 1500 ∧ (hasInstallTerm readme = true ∨ hasUsageTerm readme = true)) ∧
       readme.length > 500)) ∧
    (assessDocQuality readme = "poor" ↔
      (¬(readme.length > 3000 ∧ hasInstallTerm readme = true ∧ hasUsageTerm readme = true) ∧
       ¬(readme.length > 1500 ∧ (hasInstallTerm readme = true ∨ hasUsageTerm readme = true)) ∧
       ¬(readme.length > 500))) := by
  unfold assessDocQuality
  split_ifs with h1 h2 h3 <;>
    simp_all [Bool.and_eq_true, Bool.or_eq_true, decide_eq_true_eq]

theorem assessComplexity_tiers (readme : String) :
    (assessComplexity readme = "high" ↔ readme.length > 5000) ∧
    (assessComplexity readme = "medium" ↔
      (¬(readme.length > 5000) ∧ readme.length > 2000)) ∧
    (assessComplexity readme = "low" ↔
      (¬(readme.length > 5000) ∧ ¬(readme.length > 2000))) := by
  unfold assessComplexity
  split_ifs with h1 h2 <;> simp_all

/-- C7: for a document of length `L` and popularity `p`: the documentation
quality is `excellent` iff `L > 3000` and the text contains an install term
and a usage-or-example term, else `good` iff `L > 1500` and it contains at
least one of those terms, else `basic` iff `L > 500`, else `poor`;
complexity is `high` iff `L > 5000`, else `medium` iff `L > 2000`, else
`low`; `has_documentation` iff `L > 500`; and `production_ready` iff the
text mentions "production" or `p > 1000`. -/
theorem doc_quality_tiers (repo : Repo) (readme : String) :
    (assessDocQuality readme = "excellent" ↔
      (readme.length > 3000 ∧ hasInstallTerm readme = true ∧ hasUsageTerm readme = true)) ∧
    (assessDocQuality readme = "good" ↔
      (¬(readme.length > 3000 ∧ hasInstallTerm readme = true ∧ hasUsageTerm readme = true) ∧
       readme.length > 1500 ∧ (hasInstallTerm readme = true ∨ hasUsageTerm readme = true))) ∧
    (assessDocQuality readme = "basic" ↔
      (¬(readme.length > 3000 ∧ hasInstallTerm readme = true ∧ hasUsageTerm readme = true) ∧
       ¬(readme.length > 1500 ∧ (hasInstallTerm readme = true ∨ hasUsageTerm readme = true)) ∧
       readme.length > 500)) ∧
    (assessDocQuality readme = "poor" ↔
      (¬(readme.length > 3000 ∧ hasInstallTerm readme = true ∧ hasUsageTerm readme = true) ∧
       ¬(readme.length > 1500 ∧ (hasInstallTerm readme = true ∨ hasUsageTerm readme = true)) ∧
       ¬(readme.length > 500))) ∧
    (assessComplexity readme = "high" ↔ readme.length > 5000) ∧
    (assessComplexity readme = "medium" ↔
      (¬(readme.length > 5000) ∧ readme.length > 2000)) ∧
    (assessComplexity readme = "low" ↔
      (¬(readme.length > 5000) ∧ ¬(readme.length > 2000))) ∧
    ((analyzeRepo repo readme).has_documentation = true ↔ readme.length > 500) ∧
    ((analyzeRepo repo readme).production_ready = true ↔
      (jsIncludes (jsToLower readme) "production" = true ∨
       repo.stargazers_count > 1000)) := by
  obtain ⟨hq1, hq2, hq3, hq4⟩ := assessDocQuality_tiers readme
  obtain ⟨hc1, hc2, hc3⟩ := assessComplexity_tiers readme
  refine ⟨hq1, hq2, hq3, hq4, hc1, hc2, hc3, ?_, ?_⟩
  · show decide (readme.length > 500) = true ↔ readme.length > 500
    simp
  · show (jsIncludes (jsToLower readme) "production" ||
        decide (repo.stargazers_count > 1000)) = true ↔ _
    simp

theorem doc_quality_tiers_witness :
    (assessDocQuality "short text" = "excellent" ↔
      (("short text" : String).length > 3000 ∧
       hasInstallTerm "short text" = true ∧ hasUsageTerm "short text" = true)) ∧
    (assessDocQuality "short text" = "good" ↔
      (¬(("short text" : String).length > 3000 ∧
         hasInstallTerm "short text" = true ∧ hasUsageTerm "short text" = true) ∧
       ("short text" : String).length > 1500 ∧
       (hasInstallTerm "short text" = true ∨ hasUsageTerm "short text" = true))) ∧
    (assessDocQuality "short text" = "basic" ↔
      (¬(("short text" : String).length > 3000 ∧
         hasInstallTerm "short text" = true ∧ hasUsageTerm "short text" = true) ∧
       ¬(("short text" : String).length > 1500 ∧
         (hasInstallTerm "short text" = true ∨ hasUsageTerm "short text" = true)) ∧
       ("short text" : String).length > 500)) ∧
    (assessDocQuality "short text" = "poor" ↔
      (¬(("short text" : String).length > 3000 ∧
         hasInstallTerm "short text" = true ∧ hasUsageTerm "short text" = true) ∧
       ¬(("short text" : String).length > 1500 ∧
         (hasInstallTerm "short text" = true ∨ hasUsageTerm "short text" = true)) ∧
       ¬(("short text" : String).length > 500))) ∧
    (assessComplexity "short text" = "high" ↔ ("short text" : String).length > 5000) ∧
    (assessComplexity "short text" = "medium" ↔
      (¬(("short text" : String).length > 5000) ∧ ("short text" : String).length > 2000)) ∧
    (assessComplexity "short text" = "low" ↔
      (¬(("short text" : String).length > 5000) ∧ ¬(("short text" : String).length > 2000))) ∧
    ((analyzeRepo repoSample "short text").has_documentation = true ↔
      ("short text" : String).length > 500) ∧
    ((analyzeRepo repoSample "short text").production_ready = true ↔
      (jsIncludes (jsToLower "short text") "production" = true ∨
       repoSample.stargazers_count > 1000)) :=
  doc_quality_tiers repoSample "short text"

/-- C8: the Scoring Engine is deterministic and side-effect-free — it is a
pure function of `(repository metadata, document text)`, so two invocations
on identical inputs return identical structured analyses and identical
numeric utility scores. -/
theorem scoring_deterministic (repo₁ repo₂ : Repo) (readme₁ readme₂ : String)
    (hrepo : repo₁ = repo₂) (hreadme : readme₁ = readme₂) :
    analyzeRepo repo₁ readme₁ = analyzeRepo repo₂ readme₂ ∧
    calculateUtilityScore repo₁ readme₁ (analyzeRepo repo₁ readme₁) =
      calculateUtilityScore repo₂ readme₂ (analyzeRepo repo₂ readme₂) := by
  subst hrepo
  subst hreadme
  exact ⟨rfl, rfl⟩

theorem scoring_deterministic_witness :
    analyzeRepo repoSample "api readme" = analyzeRepo repoSample "api readme" ∧
    calculateUtilityScore repoSample "api readme" (analyzeRepo repoSample "api readme") =
      calculateUtilityScore repoSample "api readme" (analyzeRepo repoSample "api readme") :=
  scoring_deterministic repoSample repoSample "api readme" "api readme" rfl rfl

end GitDiscovery
